import Mathlib

/-!
Verification of the equipment-borrowing workflow core (request lifecycle,
building-response collection, allocation engine).

The Python source is shallowly embedded: SQLAlchemy tables become lists of
records in a `DB` state, ORM rows are identified by their primary-key `id`
column, `datetime.utcnow()` becomes an explicit `now : Nat` argument, and
`uuid.uuid4()` becomes a fresh-id counter threaded through the state
(`DB.nextId`).  Each CRUD coroutine becomes a pure function
`DB → args → DB × result`; the failure paths that in the source `return None`
before any mutation return the input state unchanged, mirroring the
commit-or-nothing transaction scope.
-/

/-- app/models/buildings.py: Building (columns used by the workflow core). -/
structure Building where
  id : String
  name : String
  enabled : Bool
deriving Repr, DecidableEq

/-- app/models/equipment.py: Equipment (columns used by the workflow core). -/
structure Equipment where
  id : String
  name : String
deriving Repr, DecidableEq

/-- app/models/users.py: User (columns used by the workflow core). -/
structure User where
  id : String
  username : String
  email : String
deriving Repr, DecidableEq

/-- app/models/requests.py: Request.  Dates are kept as opaque strings; the
workflow logic never computes with them. -/
structure Request where
  id : String
  userId : String
  startDate : String
  endDate : String
  venue : String
  purpose : String
  status : String
  updatedAt : Nat
  notes : Option String
  pdfPath : Option String
  emailSent : Bool
deriving Repr, DecidableEq

/-- app/models/requests.py: RequestItem. -/
structure RequestItem where
  id : String
  requestId : String
  equipmentId : String
  requestedQuantity : Int
  approvedQuantity : Option Int
deriving Repr, DecidableEq

/-- app/models/responses.py: BuildingResponseToken.

Modelled from the spec: the `is_finished` column.  The ORM model under
src/app/models/responses.py does not declare it, but app/crud/responses.py and
app/api/responses.py read and write `is_finished` throughout, and the spec
(§3 ResponseToken, §9) names the multi-round token design with the `finished`
flag as the intended, later-stage model; the column declaration (a migration)
is the missing piece, so `isFinished` is included here following the spec's
words: "`finished` flag (set true once the request reaches completed — blocks
all further access regardless of expiry)". -/
structure ResponseToken where
  id : String
  requestId : String
  token : String
  expiresAt : Nat
  isUsed : Bool
  isFinished : Bool
deriving Repr, DecidableEq

/-- app/models/responses.py: BuildingResponse. -/
structure BuildingResponse where
  id : String
  requestId : String
  buildingId : String
  responseTokenId : String
  submittedAt : Nat
  ipAddress : Option String
deriving Repr, DecidableEq

/-- app/models/responses.py: BuildingResponseItem. -/
structure BuildingResponseItem where
  id : String
  responseId : String
  requestItemId : String
  availableQuantity : Int
deriving Repr, DecidableEq

/-- app/models/allocations.py: Allocation. -/
structure Allocation where
  id : String
  requestItemId : String
  buildingId : String
  allocatedQuantity : Int
  allocatedBy : String
deriving Repr, DecidableEq

/-- app/models/requests.py: RequestStatusHistory. -/
structure RequestStatusHistory where
  id : String
  requestId : String
  status : String
  operatorId : String
  notes : Option String
deriving Repr, DecidableEq

/-- The relational store: one list per table, plus the fresh-id counter. -/
structure DB where
  users : List User
  buildings : List Building
  equipment : List Equipment
  requests : List Request
  requestItems : List RequestItem
  tokens : List ResponseToken
  responses : List BuildingResponse
  responseItems : List BuildingResponseItem
  allocations : List Allocation
  history : List RequestStatusHistory
  nextId : Nat
deriving Repr, DecidableEq

/-- Python truthiness of an optional string: `None` and `""` are falsy
(`if obj_in.notes`, `if ip_address`, `if not request.pdf_path`). -/
def pyTruthy : Option String → Bool
  | none => false
  | some s => !(s == "")

/-- `str(uuid.uuid4())`, modelled as a deterministic fresh-id supply. -/
def mkId (n : Nat) : String := "uuid-" ++ toString n

/-! ## Pydantic request schemas (app/schemas/allocations.py, responses.py) -/

/-- app/schemas/allocations.py: BuildingAllocationBase. -/
structure BuildingAllocationBase where
  buildingId : String
  allocatedQuantity : Int
deriving Repr, DecidableEq

/-- app/schemas/allocations.py: ItemAllocationBase. -/
structure ItemAllocationBase where
  itemId : String
  approvedQuantity : Int
  buildingAllocations : List BuildingAllocationBase
deriving Repr, DecidableEq

/-- app/schemas/allocations.py: AllocationCreate. -/
structure AllocationCreate where
  allocations : List ItemAllocationBase
  notes : Option String
deriving Repr, DecidableEq

/-- Field constraint `allocatedQuantity: int = Field(..., gt=0)`. -/
def validBuildingAllocationFields (b : BuildingAllocationBase) : Bool :=
  0 < b.allocatedQuantity

/-- ItemAllocationBase validation: the `ge=0` field constraint on
approvedQuantity, the `gt=0` constraint on each entry's allocatedQuantity, and
the model validator validate_allocation_consistency (approvedQuantity == 0
requires an empty list; approvedQuantity > 0 requires a non-empty list whose
allocatedQuantity total equals approvedQuantity exactly). -/
def validItemAllocation (a : ItemAllocationBase) : Bool :=
  decide (0 ≤ a.approvedQuantity) &&
  a.buildingAllocations.all validBuildingAllocationFields &&
  (if a.approvedQuantity == 0 then
    a.buildingAllocations.isEmpty
  else
    !a.buildingAllocations.isEmpty &&
      ((a.buildingAllocations.map (fun b => b.allocatedQuantity)).sum == a.approvedQuantity))

/-- Pydantic parsing of an AllocationCreate body: every supplied item is
validated independently; any failure rejects the whole body before the
endpoint runs. -/
def parseAllocationCreate (x : AllocationCreate) : Except String AllocationCreate :=
  if x.allocations.all validItemAllocation then .ok x else .error "VALIDATION_ERROR"

/-- app/schemas/responses.py: ResponseItemBase. -/
structure ResponseItemIn where
  itemId : String
  availableQuantity : Int
deriving Repr, DecidableEq

/-- app/schemas/responses.py: BuildingResponseBase / BuildingResponseCreate. -/
structure BuildingResponseCreate where
  buildingId : String
  items : List ResponseItemIn
deriving Repr, DecidableEq

/-- Pydantic parsing of a BuildingResponseCreate body: each item needs
`availableQuantity ge=0`; the items list itself carries no minimum length, so
an empty list parses successfully. -/
def parseBuildingResponseCreate (x : BuildingResponseCreate) :
    Except String BuildingResponseCreate :=
  if x.items.all (fun it => decide (0 ≤ it.availableQuantity)) then .ok x
  else .error "VALIDATION_ERROR"

/-! ## Row-lookup predicates (the WHERE clauses of the source queries) -/

/-- crud/responses.py token query: token match, not expired
(expires_at > utcnow), and not finished. -/
def tokenValid (t : String) (now : Nat) (tok : ResponseToken) : Bool :=
  tok.token == t && decide (now < tok.expiresAt) && !tok.isFinished

/-- `Request.id == request_id`. -/
def byRequestId (rid : String) (r : Request) : Bool := r.id == rid

/-- crud/allocations.py allocate query:
`Request.id == request_id AND Request.status == "pending_allocation"`. -/
def pendingAllocationReq (rid : String) (r : Request) : Bool :=
  r.id == rid && r.status == "pending_allocation"

/-- crud/responses.py building query:
`Building.id == buildingId AND Building.enabled == True`. -/
def enabledBuilding (bid : String) (b : Building) : Bool :=
  b.id == bid && b.enabled

/-- crud/responses.py response query:
`response_token_id == token.id AND building_id == buildingId`. -/
def pairResponse (tokId bid : String) (r : BuildingResponse) : Bool :=
  r.responseTokenId == tokId && r.buildingId == bid

/-- crud/responses.py item query: the item exists and belongs to the token's
request (`RequestItem.id == itemId AND RequestItem.request_id == request_id`). -/
def itemBelongs (db : DB) (rid : String) (it : ResponseItemIn) : Bool :=
  db.requestItems.any (fun ri => ri.id == it.itemId && ri.requestId == rid)

/-! ## Request state machine (app/crud/requests.py) -/

/-- crud/requests.py update_status: fetch the request, set status (the
`updated_at` column updates via its onupdate hook), append one
RequestStatusHistory row, commit, return the refreshed request. -/
def update_status (db : DB) (requestId newStatus operatorId : String)
    (notes : Option String) (now : Nat) : DB × Option Request :=
  match db.requests.find? (byRequestId requestId) with
  | none => (db, none)
  | some r =>
    let entry : RequestStatusHistory :=
      { id := mkId db.nextId, requestId := requestId, status := newStatus,
        operatorId := operatorId, notes := notes }
    ({ db with
        requests := db.requests.map (fun q =>
          if q.id == requestId then { q with status := newStatus, updatedAt := now } else q),
        history := db.history ++ [entry],
        nextId := db.nextId + 1 },
     some { r with status := newStatus, updatedAt := now })

/-- crud/requests.py close_request: only the applicant may close, and only
from pending_review; every failure path returns before any write. -/
def close_request (db : DB) (requestId userId : String) (now : Nat) :
    DB × Option Request :=
  match db.requests.find? (byRequestId requestId) with
  | none => (db, none)
  | some r =>
    if r.userId != userId then (db, none)
    else if r.status != "pending_review" then (db, none)
    else update_status db requestId "closed" userId (some "申請人主動關閉申請") now

/-- crud/requests.py reject_request: staff only, from pending_review, with the
mandatory reason stored as the history notes. -/
def reject_request (db : DB) (requestId operatorId reason : String) (now : Nat) :
    DB × Option Request :=
  match db.requests.find? (byRequestId requestId) with
  | none => (db, none)
  | some r =>
    if r.status != "pending_review" then (db, none)
    else update_status db requestId "rejected" operatorId (some reason) now

/-- crud/requests.py approve_inquiry: staff only, from pending_review, moves
the request to pending_building_response. -/
def approve_inquiry (db : DB) (requestId operatorId : String) (now : Nat) :
    DB × Option Request :=
  match db.requests.find? (byRequestId requestId) with
  | none => (db, none)
  | some r =>
    if r.status != "pending_review" then (db, none)
    else update_status db requestId "pending_building_response" operatorId
      (some "已同意詢問大樓管理員") now

/-- Item entry of the detail payload built by get_request_detail. -/
structure DetailItem where
  itemId : String
  equipmentName : String
  requestedQuantity : Int
  approvedQuantity : Option Int
deriving Repr, DecidableEq

/-- Status-history entry of the detail payload built by get_request_detail. -/
structure DetailHistory where
  status : String
  operatorId : String
  operatorName : String
  notes : Option String
deriving Repr, DecidableEq

/-- Detail payload of crud/requests.py get_request_detail (the fields the
workflow endpoints consume). -/
structure RequestDetail where
  requestId : String
  userId : String
  username : String
  status : String
  notes : Option String
  items : List DetailItem
  statusHistory : List DetailHistory
deriving Repr, DecidableEq

/-- crud/requests.py get_request_detail: the request row inner-joined with its
applicant User (both must exist), its items inner-joined with Equipment, and
its history inner-joined with the operator User. -/
def get_request_detail (db : DB) (requestId : String) : Option RequestDetail :=
  match db.requests.find? (byRequestId requestId) with
  | none => none
  | some r =>
    match db.users.find? (fun u => u.id == r.userId) with
    | none => none
    | some u =>
      let items := (db.requestItems.filter (fun it => it.requestId == requestId)).filterMap
        (fun it => (db.equipment.find? (fun e => e.id == it.equipmentId)).map
          (fun e => ({ itemId := it.id, equipmentName := e.name,
                       requestedQuantity := it.requestedQuantity,
                       approvedQuantity := it.approvedQuantity } : DetailItem)))
      let hist := (db.history.filter (fun h => h.requestId == requestId)).filterMap
        (fun h => (db.users.find? (fun u2 => u2.id == h.operatorId)).map
          (fun u2 => ({ status := h.status, operatorId := h.operatorId,
                        operatorName := u2.username, notes := h.notes } : DetailHistory)))
      some { requestId := r.id, userId := r.userId, username := u.username,
             status := r.status, notes := r.notes, items := items, statusHistory := hist }

/-- Outcome of the POST /requests/id/close endpoint. -/
inductive CloseResult
  | ok (requestId st : String)
  | notFound
  | forbidden
  | invalidState (currentStatus : String)
deriving Repr, DecidableEq

/-- api/requests.py close_request endpoint: run the CRUD close; on failure
re-fetch the detail to distinguish NOT_FOUND (request absent) from FORBIDDEN
(caller is not the applicant) from INVALID_STATE (wrong status, reported with
the current status). -/
def api_close_request (db : DB) (requestId userId : String) (now : Nat) :
    DB × CloseResult :=
  let step := close_request db requestId userId now
  match step.2 with
  | some r => (step.1, .ok r.id r.status)
  | none =>
    match get_request_detail step.1 requestId with
    | none => (step.1, .notFound)
    | some d =>
      if d.userId != userId then (step.1, .forbidden)
      else (step.1, .invalidState d.status)

/-! ## Building response collector (app/crud/responses.py) -/

/-- One item of the form payload (request items joined with Equipment). -/
structure FormItem where
  itemId : String
  equipmentName : String
  requestedQuantity : Int
deriving Repr, DecidableEq

/-- One enabled building of the form payload. -/
structure FormBuilding where
  buildingId : String
  buildingName : String
deriving Repr, DecidableEq

/-- One previously submitted availability figure in the form payload. -/
structure FormResponseItem where
  itemId : String
  equipmentName : String
  availableQuantity : Int
deriving Repr, DecidableEq

/-- One building's previously submitted response in the form payload. -/
structure FormBuildingResponse where
  buildingId : String
  buildingName : String
  items : List FormResponseItem
  submittedAt : Nat
deriving Repr, DecidableEq

/-- Payload of crud/responses.py get_form_data.  `responseData` is always
empty in the source (its user_agent_ip placeholder is hard-coded None), so it
is omitted here; `allBuildingResponses` carries every response already
submitted under the token. -/
structure FormData where
  requestId : String
  startDate : String
  endDate : String
  venue : String
  items : List FormItem
  buildings : List FormBuilding
  allBuildingResponses : List FormBuildingResponse
deriving Repr, DecidableEq

/-- crud/responses.py get_form_data: reject unless the token row matches,
is unexpired and not finished; reject unless the owning request exists with
status pending_building_response or pending_allocation; then assemble the
request summary, the item list (inner join with Equipment), the enabled
building roster (the source additionally orders it by name, a presentation
concern not modelled on the list), and — when the token was already used —
all prior responses under it. -/
def get_form_data (db : DB) (t : String) (now : Nat) : Option FormData :=
  match db.tokens.find? (tokenValid t now) with
  | none => none
  | some tokenObj =>
    match db.requests.find? (byRequestId tokenObj.requestId) with
    | none => none
    | some request =>
      if !(request.status == "pending_building_response" ||
           request.status == "pending_allocation") then none
      else
        let items := (db.requestItems.filter
            (fun it => it.requestId == tokenObj.requestId)).filterMap
          (fun it => (db.equipment.find? (fun e => e.id == it.equipmentId)).map
            (fun e => ({ itemId := it.id, equipmentName := e.name,
                         requestedQuantity := it.requestedQuantity } : FormItem)))
        let buildings := (db.buildings.filter (fun b => b.enabled)).map
          (fun b => ({ buildingId := b.id, buildingName := b.name } : FormBuilding))
        let priorResponses :=
          if tokenObj.isUsed then
            (db.responses.filter (fun r => r.responseTokenId == tokenObj.id)).filterMap
              (fun r => (db.buildings.find? (fun b => b.id == r.buildingId)).map
                (fun b =>
                  ({ buildingId := r.buildingId, buildingName := b.name,
                     items := (db.responseItems.filter
                         (fun ri => ri.responseId == r.id)).filterMap
                       (fun ri => (db.requestItems.find?
                           (fun q => q.id == ri.requestItemId)).bind
                         (fun q => (db.equipment.find? (fun e => e.id == q.equipmentId)).map
                           (fun e => ({ itemId := q.id, equipmentName := e.name,
                                        availableQuantity := ri.availableQuantity }
                             : FormResponseItem)))),
                     submittedAt := r.submittedAt } : FormBuildingResponse)))
          else []
        some { requestId := request.id, startDate := request.startDate,
               endDate := request.endDate, venue := request.venue,
               items := items, buildings := buildings,
               allBuildingResponses := priorResponses }

/-- The BuildingResponseItem rows inserted for a submission, one per supplied
item, with fresh ids drawn from `base` onwards. -/
def newResponseItems (responseId : String) (items : List ResponseItemIn)
    (base : Nat) : List BuildingResponseItem :=
  match items with
  | [] => []
  | it :: rest =>
    { id := mkId base, responseId := responseId,
      requestItemId := it.itemId, availableQuantity := it.availableQuantity } ::
      newResponseItems responseId rest (base + 1)

/-- crud/responses.py submit_response.  Gates, in source order: valid token
(match, unexpired, not finished); owning request exists with status
pending_building_response or pending_allocation; the building exists and is
enabled; every supplied itemId belongs to the token's request.  Then, if the
token is used and a BuildingResponse already exists for (token, building),
update it in place: refresh submitted_at, overwrite ip_address when one is
supplied (Python truthiness), delete all its prior items, insert the new ones,
and append a history entry keeping the current status.  Otherwise insert a new
BuildingResponse with its items, mark the token used, advance the status
pending_building_response → pending_allocation if this is the first response,
and append the matching history entry. -/
def submit_response (db : DB) (t : String) (objIn : BuildingResponseCreate)
    (ipAddress : Option String) (now : Nat) : DB × Option BuildingResponse :=
  match db.tokens.find? (tokenValid t now) with
  | none => (db, none)
  | some tokenObj =>
    match db.requests.find? (byRequestId tokenObj.requestId) with
    | none => (db, none)
    | some request =>
      if !(request.status == "pending_building_response" ||
           request.status == "pending_allocation") then (db, none)
      else
        match db.buildings.find? (enabledBuilding objIn.buildingId) with
        | none => (db, none)
        | some building =>
          if !(objIn.items.all (itemBelongs db tokenObj.requestId)) then (db, none)
          else
            match (if tokenObj.isUsed then
                db.responses.find? (pairResponse tokenObj.id objIn.buildingId)
              else none) with
            | some existing =>
              let newIp := if pyTruthy ipAddress then ipAddress else existing.ipAddress
              let updated := { existing with submittedAt := now, ipAddress := newIp }
              let entry : RequestStatusHistory :=
                { id := mkId (db.nextId + objIn.items.length),
                  requestId := request.id, status := request.status,
                  operatorId := request.userId,
                  notes := some (building.name ++ "大樓管理員已更新回覆") }
              ({ db with
                  responses := db.responses.map (fun r =>
                    if r.id == existing.id then
                      { r with submittedAt := now,
                               ipAddress := if pyTruthy ipAddress then ipAddress
                                            else r.ipAddress }
                    else r),
                  responseItems :=
                    db.responseItems.filter (fun it => !(it.responseId == existing.id)) ++
                      newResponseItems existing.id objIn.items db.nextId,
                  history := db.history ++ [entry],
                  nextId := db.nextId + objIn.items.length + 1 },
               some updated)
            | none =>
              let respId := mkId db.nextId
              let newResp : BuildingResponse :=
                { id := respId, requestId := tokenObj.requestId,
                  buildingId := objIn.buildingId, responseTokenId := tokenObj.id,
                  submittedAt := now, ipAddress := ipAddress }
              let statusChanged := request.status == "pending_building_response"
              let entry : RequestStatusHistory :=
                if statusChanged then
                  { id := mkId (db.nextId + 1 + objIn.items.length),
                    requestId := request.id, status := "pending_allocation",
                    operatorId := request.userId,
                    notes := some (building.name ++
                      "大樓管理員已提交回覆，申請狀態更新為待分配") }
                else
                  { id := mkId (db.nextId + 1 + objIn.items.length),
                    requestId := request.id, status := request.status,
                    operatorId := request.userId,
                    notes := some (building.name ++ "大樓管理員已提交回覆") }
              ({ db with
                  responses := db.responses ++ [newResp],
                  responseItems := db.responseItems ++
                    newResponseItems respId objIn.items (db.nextId + 1),
                  tokens := db.tokens.map (fun tk =>
                    if tk.id == tokenObj.id then { tk with isUsed := true } else tk),
                  requests := if statusChanged then
                      db.requests.map (fun r =>
                        if r.id == request.id then
                          { r with status := "pending_allocation", updatedAt := now }
                        else r)
                    else db.requests,
                  history := db.history ++ [entry],
                  nextId := db.nextId + objIn.items.length + 2 },
               some newResp)

/-- crud/responses.py mark_tokens_as_finished: set is_finished on every token
of the request (used or not) and commit. -/
def mark_tokens_as_finished (db : DB) (requestId : String) : DB × Bool :=
  ({ db with tokens := db.tokens.map (fun tk =>
      if tk.requestId == requestId then { tk with isFinished := true } else tk) },
   true)

/-! ## Allocation engine (app/crud/allocations.py, app/api/allocations.py) -/

/-- The Allocation rows inserted for one item, one per building entry, with
fresh ids drawn from `base` onwards. -/
def newAllocRows (itemId operatorId : String) (l : List BuildingAllocationBase)
    (base : Nat) : List Allocation :=
  match l with
  | [] => []
  | b :: rest =>
    { id := mkId base, requestItemId := itemId, buildingId := b.buildingId,
      allocatedQuantity := b.allocatedQuantity, allocatedBy := operatorId } ::
      newAllocRows itemId operatorId rest (base + 1)

/-- One iteration of the allocate loop.  `items` is the snapshot of the
request's items fetched before the loop (the items_map): an allocation entry
whose itemId is absent from it is skipped with `continue`.  Otherwise the
item's approved_quantity is set, every existing Allocation row for the item is
deleted, and, when approvedQuantity > 0, one new Allocation row per building
entry is inserted. -/
def applyItemAllocation (items : List RequestItem) (requestId operatorId : String)
    (db : DB) (a : ItemAllocationBase) : DB :=
  if items.any (fun it => it.id == a.itemId) then
    { db with
        requestItems := db.requestItems.map (fun it =>
          if it.requestId == requestId && it.id == a.itemId then
            { it with approvedQuantity := some a.approvedQuantity }
          else it),
        allocations :=
          db.allocations.filter (fun al => !(al.requestItemId == a.itemId)) ++
            (if 0 < a.approvedQuantity then
              newAllocRows a.itemId operatorId a.buildingAllocations db.nextId
            else []),
        nextId := db.nextId +
          (if 0 < a.approvedQuantity then a.buildingAllocations.length else 0) }
  else db

/-- crud/allocations.py allocate_equipment, through its commit: require the
request to exist in status pending_allocation; fold the allocation entries
over the item snapshot; then set status completed, store the notes, append the
completion history entry (falling back to the fixed note when no notes were
supplied), mark every token of the request finished, commit, and return the
refreshed request. -/
def allocate_equipment (db : DB) (requestId : String) (objIn : AllocationCreate)
    (operatorId : String) (now : Nat) : DB × Option Request :=
  match db.requests.find? (pendingAllocationReq requestId) with
  | none => (db, none)
  | some _ =>
    let items := db.requestItems.filter (fun it => it.requestId == requestId)
    let db1 := objIn.allocations.foldl (applyItemAllocation items requestId operatorId) db
    let entry : RequestStatusHistory :=
      { id := mkId db1.nextId, requestId := requestId, status := "completed",
        operatorId := operatorId,
        notes := if pyTruthy objIn.notes then objIn.notes else some "分配完成" }
    let db2 :=
      { db1 with
          requests := db1.requests.map (fun r =>
            if r.id == requestId then
              { r with status := "completed", notes := objIn.notes, updatedAt := now }
            else r),
          history := db1.history ++ [entry],
          nextId := db1.nextId + 1 }
    let db3 := (mark_tokens_as_finished db2 requestId).1
    (db3, db3.requests.find? (byRequestId requestId))

/-- The post-commit LINE notification block of allocate_equipment.  The source
iterates the distinct buildings that received a positive allocation and, for
each one found in the buildings table, calls
line_bot_service.send_allocation_complete_notification(db, request_id=...,
building_name=building.name).  That method's signature is
(db, request_id, building_id), so the building_name keyword raises TypeError
at the first existing building; the except-handler then evaluates
logging_service.error, but crud/allocations.py never imports logging_service,
so the handler itself raises NameError, which escapes allocate_equipment.
When no allocated building exists in the table the loop performs no call and
the block succeeds. -/
def allocationNotifyPhase (db : DB) (objIn : AllocationCreate) : Except String Unit :=
  let buildingIds := (objIn.allocations.filter (fun a => 0 < a.approvedQuantity)).flatMap
    (fun a => a.buildingAllocations.map (fun b => b.buildingId))
  if buildingIds.any (fun bid => db.buildings.any (fun b => b.id == bid)) then
    .error "NameError: name logging_service is not defined"
  else .ok ()

/-- allocate_equipment as callers observe it: the committed transaction
followed by the notification block, whose NameError (if any) escapes after the
commit. -/
def allocate_equipment_run (db : DB) (requestId : String) (objIn : AllocationCreate)
    (operatorId : String) (now : Nat) : DB × Except String (Option Request) :=
  let step := allocate_equipment db requestId objIn operatorId now
  match step.2 with
  | none => (step.1, .ok none)
  | some r =>
    match allocationNotifyPhase step.1 objIn with
    | .error e => (step.1, .error e)
    | .ok _ => (step.1, .ok (some r))

/-- crud/allocations.py generate_pdf: only for a completed request; store and
return the simulated document path. -/
def generate_pdf (db : DB) (requestId : String) : DB × Option String :=
  match db.requests.find? (fun r => r.id == requestId && r.status == "completed") with
  | none => (db, none)
  | some _ =>
    let path := "storage/requests/" ++ requestId ++ ".pdf"
    ({ db with requests := db.requests.map (fun r =>
        if r.id == requestId then { r with pdfPath := some path } else r) },
     some path)

/-- crud/allocations.py send_email: only for a completed request joined with
its applicant; generate the PDF first if the request has none; mark email_sent
and return the recipient address. -/
def send_email (db : DB) (requestId : String) : DB × Option String :=
  match db.requests.find? (fun r => r.id == requestId && r.status == "completed") with
  | none => (db, none)
  | some r =>
    match db.users.find? (fun u => u.id == r.userId) with
    | none => (db, none)
    | some u =>
      if !(pyTruthy r.pdfPath) then
        let step := generate_pdf db requestId
        match step.2 with
        | none => (step.1, none)
        | some _ =>
          ({ step.1 with requests := step.1.requests.map (fun q =>
              if q.id == requestId then { q with emailSent := true } else q) },
           some u.email)
      else
        ({ db with requests := db.requests.map (fun q =>
            if q.id == requestId then { q with emailSent := true } else q) },
         some u.email)

/-- Outcome of the POST /requests/id/allocate endpoint. -/
inductive AllocateResult
  | validationError (msg : String)
  | notFound
  | invalidState (currentStatus : String)
  | ok (requestId st : String) (pdfUrl : Option String) (warning : Option String)
  | unhandledError (msg : String)
deriving Repr, DecidableEq

/-- api/allocations.py allocate_equipment endpoint: pydantic body validation
(per-item, before the handler runs, leaving the store untouched on failure);
NOT_FOUND when the detail is absent; INVALID_STATE with the current status
when it is not pending_allocation; then the CRUD allocation.  The handler's
try/except catches only ValueError, so the NameError escaping the
notification block surfaces as an unhandled server error.  On success the PDF
is generated and the confirmation email sent; a PDF failure downgrades to a
success response with a warning instead of failing the call. -/
def api_allocate (db : DB) (requestId : String) (body : AllocationCreate)
    (operatorId : String) (now : Nat) : DB × AllocateResult :=
  match parseAllocationCreate body with
  | .error e => (db, .validationError e)
  | .ok objIn =>
    match get_request_detail db requestId with
    | none => (db, .notFound)
    | some d =>
      if d.status != "pending_allocation" then (db, .invalidState d.status)
      else
        let step := allocate_equipment_run db requestId objIn operatorId now
        match step.2 with
        | .error e => (step.1, .unhandledError e)
        | .ok none => (step.1, .notFound)
        | .ok (some r) =>
          let pdfStep := generate_pdf step.1 requestId
          match pdfStep.2 with
          | none => (pdfStep.1, .ok r.id r.status none (some "PDF生成失敗，請稍後重試"))
          | some _ =>
            let mailStep := send_email pdfStep.1 requestId
            (mailStep.1, .ok r.id r.status
              (some ("/api/requests/" ++ requestId ++ "/pdf")) none)

/-! ## Spec-side statements and concrete states -/

/-- The per-item allocation rule exactly as the claim words it (for comparison
with the source validator `validItemAllocation`): approvedQuantity == 0 forces
an empty buildingAllocations list, approvedQuantity > 0 forces a non-empty
list whose allocatedQuantity entries sum to approvedQuantity exactly. -/
def specAllocationRule (a : ItemAllocationBase) : Prop :=
  (a.approvedQuantity = 0 → a.buildingAllocations = []) ∧
  (0 < a.approvedQuantity → a.buildingAllocations ≠ [] ∧
    (a.buildingAllocations.map (fun b => b.allocatedQuantity)).sum = a.approvedQuantity)

instance (a : ItemAllocationBase) : Decidable (specAllocationRule a) := by
  unfold specAllocationRule; infer_instance

/-- Every request that is in pending_review after a step was already in
pending_review before it: no operation re-enters the initial state. -/
def noNewPendingReviewB (post pre : DB) : Bool :=
  post.requests.all (fun q =>
    !(q.status == "pending_review") ||
      pre.requests.any (fun r => r.id == q.id && r.status == "pending_review"))

/-- The empty store. -/
def emptyDB : DB :=
  { users := [], buildings := [], equipment := [], requests := [],
    requestItems := [], tokens := [], responses := [], responseItems := [],
    allocations := [], history := [], nextId := 0 }

def userAlice : User := { id := "u1", username := "alice", email := "alice@example.com" }

def userStaff : User := { id := "s1", username := "staff", email := "staff@example.com" }

def bldgMain : Building := { id := "b1", name := "MainHall", enabled := true }

def equipDesk : Equipment := { id := "e1", name := "desk" }

def reqPendingAlloc : Request :=
  { id := "r1", userId := "u1", startDate := "2025-05-01", endDate := "2025-05-02",
    venue := "hall", purpose := "event", status := "pending_allocation",
    updatedAt := 0, notes := none, pdfPath := none, emailSent := false }

def itemDesk : RequestItem :=
  { id := "i1", requestId := "r1", equipmentId := "e1",
    requestedQuantity := 5, approvedQuantity := none }

def tokUsed : ResponseToken :=
  { id := "t1", requestId := "r1", token := "tok1", expiresAt := 100,
    isUsed := true, isFinished := false }

def tokFresh : ResponseToken :=
  { id := "t2", requestId := "r1", token := "tok2", expiresAt := 100,
    isUsed := false, isFinished := false }

/-- A request sitting in pending_allocation with one item, one enabled
building, and two live tokens (one used, one never used). -/
def dbAlloc : DB :=
  { users := [userAlice, userStaff], buildings := [bldgMain],
    equipment := [equipDesk], requests := [reqPendingAlloc],
    requestItems := [itemDesk], tokens := [tokUsed, tokFresh],
    responses := [], responseItems := [], allocations := [],
    history := [], nextId := 0 }

def reqPendingBR : Request :=
  { id := "r2", userId := "u1", startDate := "2025-05-01", endDate := "2025-05-02",
    venue := "hall", purpose := "event", status := "pending_building_response",
    updatedAt := 0, notes := none, pdfPath := none, emailSent := false }

def itemDesk2 : RequestItem :=
  { id := "i2", requestId := "r2", equipmentId := "e1",
    requestedQuantity := 3, approvedQuantity := none }

def tokR2 : ResponseToken :=
  { id := "t3", requestId := "r2", token := "tok3", expiresAt := 100,
    isUsed := false, isFinished := false }

/-- A request awaiting its first building response. -/
def dbRespond : DB :=
  { users := [userAlice], buildings := [bldgMain], equipment := [equipDesk],
    requests := [reqPendingBR], requestItems := [itemDesk2], tokens := [tokR2],
    responses := [], responseItems := [], allocations := [],
    history := [], nextId := 0 }

def respExisting : BuildingResponse :=
  { id := "br1", requestId := "r1", buildingId := "b1", responseTokenId := "t1",
    submittedAt := 1, ipAddress := some "9.9.9.9" }

def respItemOld : BuildingResponseItem :=
  { id := "bi1", responseId := "br1", requestItemId := "i1", availableQuantity := 5 }

/-- A request whose building b1 already responded under token t1. -/
def dbResubmit : DB :=
  { users := [userAlice], buildings := [bldgMain], equipment := [equipDesk],
    requests := [reqPendingAlloc], requestItems := [itemDesk], tokens := [tokUsed],
    responses := [respExisting], responseItems := [respItemOld],
    allocations := [], history := [], nextId := 10 }

def tokFinishedRow : ResponseToken :=
  { id := "t9", requestId := "r1", token := "tokF", expiresAt := 100,
    isUsed := true, isFinished := true }

def tokExpiredRow : ResponseToken :=
  { id := "t8", requestId := "r1", token := "tokE", expiresAt := 3,
    isUsed := false, isFinished := false }

/-- A store holding one finished (unexpired) token and one expired
(unfinished) token. -/
def dbDeadTokens : DB :=
  { users := [userAlice], buildings := [bldgMain], equipment := [equipDesk],
    requests := [reqPendingAlloc], requestItems := [itemDesk],
    tokens := [tokFinishedRow, tokExpiredRow], responses := [],
    responseItems := [], allocations := [], history := [], nextId := 0 }

def reqDone : Request :=
  { id := "r1", userId := "u1", startDate := "2025-05-01", endDate := "2025-05-02",
    venue := "hall", purpose := "event", status := "completed",
    updatedAt := 0, notes := none, pdfPath := none, emailSent := false }

/-- A request already in the terminal status completed. -/
def dbTerminal : DB :=
  { users := [userAlice], buildings := [bldgMain], equipment := [equipDesk],
    requests := [reqDone], requestItems := [itemDesk], tokens := [tokUsed],
    responses := [], responseItems := [], allocations := [],
    history := [], nextId := 0 }

/-- A body violating the per-item rule: 3 allocated against 5 approved. -/
def badItem : ItemAllocationBase :=
  { itemId := "i1", approvedQuantity := 5,
    buildingAllocations := [ { buildingId := "b1", allocatedQuantity := 3 } ] }

def badBody : AllocationCreate :=
  { allocations := [badItem], notes := none }

/-- A consistent item allocating i1 entirely to building b1. -/
def goodItem : ItemAllocationBase :=
  { itemId := "i1", approvedQuantity := 2,
    buildingAllocations := [ { buildingId := "b1", allocatedQuantity := 2 } ] }

def bodyGood : AllocationCreate :=
  { allocations := [goodItem], notes := some "done" }

/-- A consistent item whose itemId does not belong to the request and whose
building does not exist. -/
def bogusItem : ItemAllocationBase :=
  { itemId := "iX", approvedQuantity := 2,
    buildingAllocations := [ { buildingId := "bZ", allocatedQuantity := 2 } ] }

def bodyBogus : AllocationCreate :=
  { allocations := [bogusItem], notes := none }

/-! ## General list lemmas -/

theorem find?_none_iff {α : Type} (p : α → Bool) (l : List α) :
    l.find? p = none ↔ ∀ x ∈ l, p x = false := by
  rw [List.find?_eq_none]
  constructor
  · intro h x hx; exact Bool.eq_false_iff.mpr (h x hx)
  · intro h x hx; exact Bool.eq_false_iff.mp (h x hx)

theorem isSome_find?_of_mem {α : Type} {p : α → Bool} {l : List α} {x : α}
    (hx : x ∈ l) (hp : p x = true) : (l.find? p).isSome = true := by
  induction l with
  | nil => cases hx
  | cons a t ih =>
    cases hpa : p a with
    | true => simp [List.find?, hpa]
    | false =>
      cases hx with
      | head => rw [hpa] at hp; cases hp
      | tail _ hmem => simp [List.find?, hpa, ih hmem]

theorem all_eq_false_of_mem {α : Type} {p : α → Bool} {l : List α} {x : α}
    (hx : x ∈ l) (hp : p x = false) : l.all p = false := by
  cases h : l.all p with
  | false => rfl
  | true =>
    rw [List.all_eq_true] at h
    rw [h x hx] at hp
    cases hp

theorem countP_map_eq {α : Type} (p : α → Bool) (f : α → α) (l : List α)
    (h : ∀ x, p (f x) = p x) : (l.map f).countP p = l.countP p := by
  induction l with
  | nil => rfl
  | cons a t ih => simp [List.map_cons, List.countP_cons, ih, h]

theorem filter_of_filter_not {α : Type} (p : α → Bool) (l : List α) :
    (l.filter (fun x => !(p x))).filter p = [] := by
  induction l with
  | nil => rfl
  | cons a t ih => cases h : p a <;> simp [List.filter_cons, h, ih]

theorem filter_map_eq {α : Type} (f : α → α) (p : α → Bool) (l : List α)
    (hid : ∀ x, p (f x) = p x) (hkeep : ∀ x, p x = true → f x = x) :
    (l.map f).filter p = l.filter p := by
  induction l with
  | nil => rfl
  | cons a t ih =>
    cases h : p a with
    | true => simp [List.map_cons, List.filter_cons, hid, h, hkeep a h, ih]
    | false => simp [List.map_cons, List.filter_cons, hid, h, ih]

/-! ## Invariance lemmas for the embedded operations -/

theorem newResponseItems_filter_self (rid : String) (items : List ResponseItemIn) :
    ∀ base, (newResponseItems rid items base).filter (fun it => it.responseId == rid) =
      newResponseItems rid items base := by
  induction items with
  | nil => intro base; rfl
  | cons it rest ih =>
    intro base
    simp [newResponseItems, List.filter_cons, ih]

theorem newResponseItems_proj (rid : String) (items : List ResponseItemIn) :
    ∀ base, (newResponseItems rid items base).map
        (fun it => (it.requestItemId, it.availableQuantity)) =
      items.map (fun i => (i.itemId, i.availableQuantity)) := by
  induction items with
  | nil => intro base; rfl
  | cons it rest ih =>
    intro base
    simp [newResponseItems, List.map_cons, ih]

theorem newAllocRows_filter_ne (itemId op x : String) (hne : (itemId == x) = false)
    (l : List BuildingAllocationBase) :
    ∀ base, (newAllocRows itemId op l base).filter
        (fun al => al.requestItemId == x) = [] := by
  induction l with
  | nil => intro base; rfl
  | cons b rest ih =>
    intro base
    simp [newAllocRows, List.filter_cons, hne, ih]

theorem applyItemAllocation_requests (items : List RequestItem)
    (rid op : String) (d : DB) (a : ItemAllocationBase) :
    (applyItemAllocation items rid op d a).requests = d.requests := by
  simp only [applyItemAllocation]
  split <;> rfl

theorem applyItemAllocation_history (items : List RequestItem)
    (rid op : String) (d : DB) (a : ItemAllocationBase) :
    (applyItemAllocation items rid op d a).history = d.history := by
  simp only [applyItemAllocation]
  split <;> rfl

theorem applyItemAllocation_tokens (items : List RequestItem)
    (rid op : String) (d : DB) (a : ItemAllocationBase) :
    (applyItemAllocation items rid op d a).tokens = d.tokens := by
  simp only [applyItemAllocation]
  split <;> rfl

theorem foldl_apply_requests (items : List RequestItem) (rid op : String)
    (L : List ItemAllocationBase) :
    ∀ d : DB, (L.foldl (applyItemAllocation items rid op) d).requests = d.requests := by
  induction L with
  | nil => intro d; rfl
  | cons a t ih =>
    intro d
    rw [List.foldl_cons, ih, applyItemAllocation_requests]

theorem foldl_apply_history (items : List RequestItem) (rid op : String)
    (L : List ItemAllocationBase) :
    ∀ d : DB, (L.foldl (applyItemAllocation items rid op) d).history = d.history := by
  induction L with
  | nil => intro d; rfl
  | cons a t ih =>
    intro d
    rw [List.foldl_cons, ih, applyItemAllocation_history]

theorem foldl_apply_tokens (items : List RequestItem) (rid op : String)
    (L : List ItemAllocationBase) :
    ∀ d : DB, (L.foldl (applyItemAllocation items rid op) d).tokens = d.tokens := by
  induction L with
  | nil => intro d; rfl
  | cons a t ih =>
    intro d
    rw [List.foldl_cons, ih, applyItemAllocation_tokens]

theorem alloc_filter_comm (y x : String) (hxy : (y == x) = false)
    (l : List Allocation) :
    (l.filter (fun al => !(al.requestItemId == y))).filter
        (fun al => al.requestItemId == x) =
      l.filter (fun al => al.requestItemId == x) := by
  induction l with
  | nil => rfl
  | cons al t ih =>
    cases hy : al.requestItemId == y with
    | true =>
      have hval : al.requestItemId = y := by
        have := hy
        simpa [beq_iff_eq] using this
      have hx2 : (al.requestItemId == x) = false := by
        rw [hval]; exact hxy
      simp [List.filter_cons, hy, hx2, ih]
    | false => cases hx2 : al.requestItemId == x <;> simp [List.filter_cons, hy, hx2, ih]

theorem any_id_of_eq {items : List RequestItem} {y x : String}
    (hA : items.any (fun it => it.id == y) = true)
    (hx : items.any (fun it => it.id == x) = false) : (y == x) = false := by
  cases hyx : y == x with
  | false => rfl
  | true =>
    have : y = x := by simpa [beq_iff_eq] using hyx
    rw [this] at hA
    rw [hA] at hx
    cases hx

theorem applyItemAllocation_alloc_filter (items : List RequestItem)
    (rid op x : String) (hx : items.any (fun it => it.id == x) = false)
    (d : DB) (a : ItemAllocationBase) :
    ((applyItemAllocation items rid op d a).allocations.filter
        (fun al => al.requestItemId == x)) =
      d.allocations.filter (fun al => al.requestItemId == x) := by
  by_cases hA : items.any (fun it => it.id == a.itemId) = true
  · have hne : (a.itemId == x) = false := any_id_of_eq hA hx
    simp only [applyItemAllocation, hA, if_true]
    rw [List.filter_append, alloc_filter_comm a.itemId x hne]
    by_cases hq : 0 < a.approvedQuantity
    · rw [if_pos hq, newAllocRows_filter_ne a.itemId op x hne]
      simp
    · rw [if_neg hq]
      simp
  · have hA2 : items.any (fun it => it.id == a.itemId) = false :=
      Bool.eq_false_iff.mpr hA
    simp only [applyItemAllocation, hA2]
    simp

theorem applyItemAllocation_item_filter (items : List RequestItem)
    (rid op x : String) (hx : items.any (fun it => it.id == x) = false)
    (d : DB) (a : ItemAllocationBase) :
    ((applyItemAllocation items rid op d a).requestItems.filter
        (fun it => it.id == x)) =
      d.requestItems.filter (fun it => it.id == x) := by
  by_cases hA : items.any (fun it => it.id == a.itemId) = true
  · have hne : (a.itemId == x) = false := any_id_of_eq hA hx
    simp only [applyItemAllocation, hA, if_true]
    refine filter_map_eq _ _ _ (fun it => ?_) (fun it hit => ?_)
    · cases h : it.requestId == rid && it.id == a.itemId <;> simp [h]
    · have hidx : it.id = x := by simpa [beq_iff_eq] using hit
      have : (it.id == a.itemId) = false := by
        rw [hidx]
        cases h : x == a.itemId with
        | false => rfl
        | true =>
          have hax : a.itemId = x := (beq_iff_eq.mp h).symm
          rw [hax] at hne
          simp at hne
      simp [this]
  · have hA2 : items.any (fun it => it.id == a.itemId) = false :=
      Bool.eq_false_iff.mpr hA
    simp only [applyItemAllocation, hA2]
    simp

theorem foldl_apply_alloc_filter (items : List RequestItem) (rid op x : String)
    (hx : items.any (fun it => it.id == x) = false) (L : List ItemAllocationBase) :
    ∀ d : DB, ((L.foldl (applyItemAllocation items rid op) d).allocations.filter
        (fun al => al.requestItemId == x)) =
      d.allocations.filter (fun al => al.requestItemId == x) := by
  induction L with
  | nil => intro d; rfl
  | cons a t ih =>
    intro d
    rw [List.foldl_cons, ih, applyItemAllocation_alloc_filter items rid op x hx]

theorem foldl_apply_item_filter (items : List RequestItem) (rid op x : String)
    (hx : items.any (fun it => it.id == x) = false) (L : List ItemAllocationBase) :
    ∀ d : DB, ((L.foldl (applyItemAllocation items rid op) d).requestItems.filter
        (fun it => it.id == x)) =
      d.requestItems.filter (fun it => it.id == x) := by
  induction L with
  | nil => intro d; rfl
  | cons a t ih =>
    intro d
    rw [List.foldl_cons, ih, applyItemAllocation_item_filter items rid op x hx]

/-! ## Preservation of the initial state (no operation re-enters pending_review) -/

theorem noNewB_true_of (pre post : DB)
    (h : ∀ q ∈ post.requests, q.status = "pending_review" →
      ∃ r ∈ pre.requests, r.id = q.id ∧ r.status = "pending_review") :
    noNewPendingReviewB post pre = true := by
  rw [noNewPendingReviewB, List.all_eq_true]
  intro q hq
  cases hs : q.status == "pending_review" with
  | false => simp
  | true =>
    have hs2 : q.status = "pending_review" := beq_iff_eq.mp hs
    obtain ⟨r, hr, hid, hrs⟩ := h q hq hs2
    simp only [hs, Bool.not_true, Bool.false_or]
    rw [List.any_eq_true]
    exact ⟨r, hr, by simp [hid, hrs]⟩

theorem noNewB_of_eq (pre post : DB) (h : post.requests = pre.requests) :
    noNewPendingReviewB post pre = true :=
  noNewB_true_of pre post (fun q hq hs => ⟨q, h ▸ hq, rfl, hs⟩)

theorem noNewB_of_map (pre post : DB) (p : Request → Bool) (g : Request → Request)
    (hpost : post.requests = pre.requests.map (fun r => if p r then g r else r))
    (hst : ∀ r, (g r).status ≠ "pending_review") :
    noNewPendingReviewB post pre = true := by
  apply noNewB_true_of
  intro q hq hs
  rw [hpost, List.mem_map] at hq
  obtain ⟨r, hr, hfr⟩ := hq
  by_cases hp : p r = true
  · rw [if_pos hp] at hfr
    exact absurd (by rw [hfr]; exact hs) (hst r)
  · rw [if_neg hp] at hfr
    exact ⟨r, hr, by rw [hfr], by rw [hfr]; exact hs⟩

theorem noNew_update_status (db : DB) (rid newStatus opId : String)
    (notes : Option String) (now : Nat) (hst : newStatus ≠ "pending_review") :
    noNewPendingReviewB (update_status db rid newStatus opId notes now).1 db = true := by
  unfold update_status
  cases hf : db.requests.find? (byRequestId rid) with
  | none => exact noNewB_of_eq db db rfl
  | some r =>
    dsimp only
    exact noNewB_of_map db _ (fun q => q.id == rid)
      (fun q => { q with status := newStatus, updatedAt := now }) rfl
      (fun q => hst)

theorem noNew_close (db : DB) (rid uid : String) (now : Nat) :
    noNewPendingReviewB (close_request db rid uid now).1 db = true := by
  unfold close_request
  cases hf : db.requests.find? (byRequestId rid) with
  | none => exact noNewB_of_eq db db rfl
  | some r =>
    dsimp only
    by_cases h1 : (r.userId != uid) = true
    · rw [if_pos h1]; exact noNewB_of_eq db db rfl
    · rw [if_neg h1]
      by_cases h2 : (r.status != "pending_review") = true
      · rw [if_pos h2]; exact noNewB_of_eq db db rfl
      · rw [if_neg h2]
        exact noNew_update_status db rid "closed" uid _ now (by decide)

theorem noNew_reject (db : DB) (rid opId reason : String) (now : Nat) :
    noNewPendingReviewB (reject_request db rid opId reason now).1 db = true := by
  unfold reject_request
  cases hf : db.requests.find? (byRequestId rid) with
  | none => exact noNewB_of_eq db db rfl
  | some r =>
    dsimp only
    by_cases h2 : (r.status != "pending_review") = true
    · rw [if_pos h2]; exact noNewB_of_eq db db rfl
    · rw [if_neg h2]
      exact noNew_update_status db rid "rejected" opId _ now (by decide)

theorem noNew_approve (db : DB) (rid opId : String) (now : Nat) :
    noNewPendingReviewB (approve_inquiry db rid opId now).1 db = true := by
  unfold approve_inquiry
  cases hf : db.requests.find? (byRequestId rid) with
  | none => exact noNewB_of_eq db db rfl
  | some r =>
    dsimp only
    by_cases h2 : (r.status != "pending_review") = true
    · rw [if_pos h2]; exact noNewB_of_eq db db rfl
    · rw [if_neg h2]
      exact noNew_update_status db rid "pending_building_response" opId _ now (by decide)

theorem noNew_submit (db : DB) (t : String) (objIn : BuildingResponseCreate)
    (ip : Option String) (now : Nat) :
    noNewPendingReviewB (submit_response db t objIn ip now).1 db = true := by
  unfold submit_response
  cases h1 : db.tokens.find? (tokenValid t now) with
  | none => exact noNewB_of_eq db db rfl
  | some tokenObj =>
    dsimp only
    cases h2 : db.requests.find? (byRequestId tokenObj.requestId) with
    | none => exact noNewB_of_eq db db rfl
    | some request =>
      dsimp only
      by_cases h3 : (!(request.status == "pending_building_response" ||
          request.status == "pending_allocation")) = true
      · rw [if_pos h3]; exact noNewB_of_eq db db rfl
      · rw [if_neg h3]
        cases h4 : db.buildings.find? (enabledBuilding objIn.buildingId) with
        | none => exact noNewB_of_eq db db rfl
        | some building =>
          dsimp only
          by_cases h5 : (!(objIn.items.all (itemBelongs db tokenObj.requestId))) = true
          · rw [if_pos h5]; exact noNewB_of_eq db db rfl
          · rw [if_neg h5]
            cases h6 : (if tokenObj.isUsed then
                db.responses.find? (pairResponse tokenObj.id objIn.buildingId)
              else none) with
            | some existing => exact noNewB_of_eq db db rfl
            | none =>
              dsimp only
              by_cases h7 : (request.status == "pending_building_response") = true
              · simp only [h7, if_true]
                exact noNewB_of_map db _ (fun r => r.id == request.id)
                  (fun r => { r with status := "pending_allocation", updatedAt := now })
                  rfl (fun r =>
                    (by decide : ("pending_allocation" : String) ≠ "pending_review"))
              · simp only [h7, if_false]
                exact noNewB_of_eq db _ rfl

theorem noNew_allocate (db : DB) (rid : String) (objIn : AllocationCreate)
    (opId : String) (now : Nat) :
    noNewPendingReviewB (allocate_equipment db rid objIn opId now).1 db = true := by
  unfold allocate_equipment
  cases hf : db.requests.find? (pendingAllocationReq rid) with
  | none => exact noNewB_of_eq db db rfl
  | some r =>
    dsimp only
    refine noNewB_of_map db _ (fun q => q.id == rid)
      (fun q => { q with status := "completed", notes := objIn.notes, updatedAt := now })
      ?_ (fun q =>
        (by decide : ("completed" : String) ≠ "pending_review"))
    show (List.foldl _ db objIn.allocations).requests.map _ = _
    rw [foldl_apply_requests]

theorem isEmpty_false_of_ne_nil {α : Type} {l : List α} (h : l ≠ []) :
    l.isEmpty = false := by
  cases l with
  | nil => exact absurd rfl h
  | cons x xs => rfl

/-! ## Claims -/

/-- C1: allocation validation is applied independently per supplied item —
approvedQuantity == 0 forces empty buildingAllocations, approvedQuantity > 0
forces a non-empty list summing exactly to approvedQuantity — and any
violating item fails the whole allocate call with a validation error before
anything is written: the store is returned unchanged. -/
theorem spec_c1 (db : DB) (rid : String) (body : AllocationCreate)
    (operatorId : String) (now : Nat) (a : ItemAllocationBase)
    (ha : a ∈ body.allocations) (hbad : ¬ specAllocationRule a) :
    api_allocate db rid body operatorId now =
      (db, .validationError "VALIDATION_ERROR") := by
  have hv : validItemAllocation a = false := by
    unfold specAllocationRule at hbad
    rcases not_and_or.mp hbad with hA | hB
    · rw [Classical.not_imp] at hA
      obtain ⟨h0, hne⟩ := hA
      simp [validItemAllocation, h0, isEmpty_false_of_ne_nil hne]
    · rw [Classical.not_imp] at hB
      obtain ⟨hpos, hC⟩ := hB
      have hbeq : (a.approvedQuantity == 0) = false :=
        beq_eq_false_iff_ne.mpr (by omega)
      rcases not_and_or.mp hC with hD | hE
      · rw [not_ne_iff] at hD
        simp [validItemAllocation, hbeq, hD]
      · have hsum : ((a.buildingAllocations.map
            (fun b => b.allocatedQuantity)).sum == a.approvedQuantity) = false :=
          beq_eq_false_iff_ne.mpr hE
        simp [validItemAllocation, hbeq, hsum]
  have hall : body.allocations.all validItemAllocation = false :=
    all_eq_false_of_mem ha hv
  unfold api_allocate parseAllocationCreate
  rw [hall]
  simp

theorem spec_c1_witness :
    api_allocate emptyDB "r1" badBody "s1" 0 =
      (emptyDB, .validationError "VALIDATION_ERROR") :=
  spec_c1 emptyDB "r1" badBody "s1" 0 badItem (by simp [badBody]) (by decide)

/-- C5: a finished token is rejected by both get_form_data and
submit_response even when unexpired, and an expired token is rejected by both
even when not finished; the rejected submission writes nothing. -/
theorem spec_c5 (db : DB) (t : String) (now : Nat) (objIn : BuildingResponseCreate)
    (ip : Option String) :
    ((∀ tok ∈ db.tokens, tok.token = t → tok.isFinished = true) →
      get_form_data db t now = none ∧
      submit_response db t objIn ip now = (db, none)) ∧
    ((∀ tok ∈ db.tokens, tok.token = t → tok.expiresAt ≤ now) →
      get_form_data db t now = none ∧
      submit_response db t objIn ip now = (db, none)) := by
  constructor
  · intro h
    have hnone : db.tokens.find? (tokenValid t now) = none := by
      rw [find?_none_iff]
      intro tok htok
      unfold tokenValid
      cases hteq : tok.token == t with
      | false => simp [hteq]
      | true => simp [h tok htok (beq_iff_eq.mp hteq)]
    constructor
    · unfold get_form_data; rw [hnone]
    · unfold submit_response; rw [hnone]
  · intro h
    have hnone : db.tokens.find? (tokenValid t now) = none := by
      rw [find?_none_iff]
      intro tok htok
      unfold tokenValid
      cases hteq : tok.token == t with
      | false => simp [hteq]
      | true =>
        have hexp := h tok htok (beq_iff_eq.mp hteq)
        have : decide (now < tok.expiresAt) = false := decide_eq_false (by omega)
        simp [this]
    constructor
    · unfold get_form_data; rw [hnone]
    · unfold submit_response; rw [hnone]

theorem spec_c5_witness :
    (get_form_data dbDeadTokens "tokF" 5 = none ∧
      submit_response dbDeadTokens "tokF" ⟨"b1", []⟩ none 5 = (dbDeadTokens, none)) ∧
    (get_form_data dbDeadTokens "tokE" 5 = none ∧
      submit_response dbDeadTokens "tokE" ⟨"b1", []⟩ none 5 = (dbDeadTokens, none)) :=
  ⟨(spec_c5 dbDeadTokens "tokF" 5 ⟨"b1", []⟩ none).1 (by decide),
   (spec_c5 dbDeadTokens "tokE" 5 ⟨"b1", []⟩ none).2 (by decide)⟩

/-- C8: the close endpoint distinguishes its failures — NOT_FOUND when the
request row is absent, FORBIDDEN when the caller is not the applicant,
INVALID_STATE (carrying the current status) when the applicant closes a
request that is not pending_review — and in every failure case the store is
returned unchanged. -/
theorem spec_c8 (db : DB) (rid uid : String) (now : Nat) (r : Request) (u : User) :
    (db.requests.find? (byRequestId rid) = none →
      api_close_request db rid uid now = (db, .notFound)) ∧
    (db.requests.find? (byRequestId rid) = some r →
      db.users.find? (fun u0 => u0.id == r.userId) = some u →
      (r.userId ≠ uid → api_close_request db rid uid now = (db, .forbidden)) ∧
      (r.userId = uid → r.status ≠ "pending_review" →
        api_close_request db rid uid now = (db, .invalidState r.status))) := by
  constructor
  · intro hf
    simp only [api_close_request, close_request, get_request_detail, hf]
  · intro hf hu
    obtain ⟨d, hd, hdu, hds⟩ :
        ∃ d, get_request_detail db rid = some d ∧
          d.userId = r.userId ∧ d.status = r.status := by
      unfold get_request_detail
      rw [hf]
      dsimp only
      rw [hu]
      exact ⟨_, rfl, rfl, rfl⟩
    constructor
    · intro hneq
      have hb : (r.userId != uid) = true := by simpa using hneq
      have hbd : (d.userId != uid) = true := by rw [hdu]; exact hb
      have hclose : close_request db rid uid now = (db, none) := by
        unfold close_request
        rw [hf]
        dsimp only
        rw [if_pos hb]
      simp only [api_close_request, hclose]
      rw [hd]
      simp [hbd]
    · intro heq hst
      have hb : (r.userId != uid) = false := by simpa using heq
      have hs : (r.status != "pending_review") = true := by simpa using hst
      have hbd : (d.userId != uid) = false := by rw [hdu]; exact hb
      have hclose : close_request db rid uid now = (db, none) := by
        unfold close_request
        rw [hf]
        dsimp only
        rw [if_neg (by simp [hb]), if_pos hs]
      simp only [api_close_request, hclose]
      rw [hd]
      simp [hbd, hds]

theorem spec_c8_witness :
    api_close_request dbAlloc "r1" "u2" 0 = (dbAlloc, .forbidden) :=
  ((spec_c8 dbAlloc "r1" "u2" 0 reqPendingAlloc userAlice).2 (by decide)
    (by decide)).1 (by decide)

/-- C6: a request in a terminal status (completed, rejected, closed) is never
changed again by close, reject, approve-inquiry, submit-response or allocate —
each such call fails and returns the store untouched — and none of those five
operations ever writes status pending_review, so a request that left
pending_review can never re-enter it. -/
theorem spec_c6 (db db2 : DB) (rid t uid opId reason rid2 t2 uid2 opId2 reason2 : String)
    (ip ip2 : Option String) (objInS objInS2 : BuildingResponseCreate)
    (objInA objInA2 : AllocationCreate) (now now2 : Nat)
    (hterm : ∀ r ∈ db.requests, r.id = rid →
      r.status = "completed" ∨ r.status = "rejected" ∨ r.status = "closed")
    (htok : ∀ tok ∈ db.tokens, tok.token = t → tok.requestId = rid) :
    (close_request db rid uid now = (db, none) ∧
     reject_request db rid opId reason now = (db, none) ∧
     approve_inquiry db rid opId now = (db, none) ∧
     submit_response db t objInS ip now = (db, none) ∧
     allocate_equipment db rid objInA opId now = (db, none)) ∧
    (noNewPendingReviewB (close_request db2 rid2 uid2 now2).1 db2 = true ∧
     noNewPendingReviewB (reject_request db2 rid2 opId2 reason2 now2).1 db2 = true ∧
     noNewPendingReviewB (approve_inquiry db2 rid2 opId2 now2).1 db2 = true ∧
     noNewPendingReviewB (submit_response db2 t2 objInS2 ip2 now2).1 db2 = true ∧
     noNewPendingReviewB (allocate_equipment db2 rid2 objInA2 opId2 now2).1 db2 = true) := by
  have hTerm : ∀ r, db.requests.find? (byRequestId rid) = some r →
      r.status = "completed" ∨ r.status = "rejected" ∨ r.status = "closed" := by
    intro r hf
    have hmem := List.mem_of_find?_eq_some hf
    have hp := List.find?_some hf
    have hid : r.id = rid := by simpa [byRequestId] using hp
    exact hterm r hmem hid
  refine ⟨⟨?_, ?_, ?_, ?_, ?_⟩,
    noNew_close db2 rid2 uid2 now2, noNew_reject db2 rid2 opId2 reason2 now2,
    noNew_approve db2 rid2 opId2 now2, noNew_submit db2 t2 objInS2 ip2 now2,
    noNew_allocate db2 rid2 objInA2 opId2 now2⟩
  · cases hf : db.requests.find? (byRequestId rid) with
    | none => unfold close_request; rw [hf]
    | some r =>
      have hs : (r.status != "pending_review") = true := by
        rcases hTerm r hf with h | h | h <;> rw [h] <;> rfl
      unfold close_request
      rw [hf]
      dsimp only
      by_cases hb : (r.userId != uid) = true
      · rw [if_pos hb]
      · rw [if_neg hb, if_pos hs]
  · cases hf : db.requests.find? (byRequestId rid) with
    | none => unfold reject_request; rw [hf]
    | some r =>
      have hs : (r.status != "pending_review") = true := by
        rcases hTerm r hf with h | h | h <;> rw [h] <;> rfl
      unfold reject_request
      rw [hf]
      dsimp only
      rw [if_pos hs]
  · cases hf : db.requests.find? (byRequestId rid) with
    | none => unfold approve_inquiry; rw [hf]
    | some r =>
      have hs : (r.status != "pending_review") = true := by
        rcases hTerm r hf with h | h | h <;> rw [h] <;> rfl
      unfold approve_inquiry
      rw [hf]
      dsimp only
      rw [if_pos hs]
  · cases h1 : db.tokens.find? (tokenValid t now) with
    | none => unfold submit_response; rw [h1]
    | some tokenObj =>
      have hp := List.find?_some h1
      have hmem := List.mem_of_find?_eq_some h1
      simp only [tokenValid, Bool.and_eq_true] at hp
      have hreq : tokenObj.requestId = rid :=
        htok tokenObj hmem (beq_iff_eq.mp hp.1.1)
      cases h2 : db.requests.find? (byRequestId tokenObj.requestId) with
      | none => unfold submit_response; rw [h1]; dsimp only; rw [h2]
      | some request =>
        have hp2 := List.find?_some h2
        have hmem2 := List.mem_of_find?_eq_some h2
        have hid2 : request.id = rid := by
          have : request.id = tokenObj.requestId := by
            simpa [byRequestId] using hp2
          rw [this, hreq]
        have hs : (!(request.status == "pending_building_response" ||
            request.status == "pending_allocation")) = true := by
          rcases hterm request hmem2 hid2 with h | h | h <;> rw [h] <;> rfl
        unfold submit_response
        rw [h1]
        dsimp only
        rw [h2]
        dsimp only
        rw [if_pos hs]
  · have hf : db.requests.find? (pendingAllocationReq rid) = none := by
      rw [find?_none_iff]
      intro r hr
      unfold pendingAllocationReq
      cases hid : r.id == rid with
      | false => simp [hid]
      | true =>
        have : (r.status == "pending_allocation") = false := by
          rcases hterm r hr (beq_iff_eq.mp hid) with h | h | h <;> rw [h] <;> rfl
        simp [this]
    unfold allocate_equipment
    rw [hf]

theorem spec_c6_witness :
    close_request dbTerminal "r1" "u1" 5 = (dbTerminal, none) ∧
    reject_request dbTerminal "r1" "s1" "no" 5 = (dbTerminal, none) ∧
    approve_inquiry dbTerminal "r1" "s1" 5 = (dbTerminal, none) ∧
    submit_response dbTerminal "tok1" ⟨"b1", []⟩ none 5 = (dbTerminal, none) ∧
    allocate_equipment dbTerminal "r1" bodyGood "s1" 5 = (dbTerminal, none) :=
  (spec_c6 dbTerminal emptyDB "r1" "tok1" "u1" "s1" "no" "r9" "t9" "u9" "s9" "no9"
    none none ⟨"b1", []⟩ ⟨"b1", []⟩ bodyGood bodyGood 5 0
    (by decide) (by decide)).1

/-- C2: a successful allocate on a pending_allocation request commits, in one
transaction, status completed with the supplied notes on the request row, one
appended history entry with status completed, and is_finished on every token
of the request — used or not. -/
theorem spec_c2 (db : DB) (rid : String) (objIn : AllocationCreate)
    (operatorId : String) (now : Nat) (req : Request)
    (h1 : db.requests.find? (pendingAllocationReq rid) = some req) :
    ((allocate_equipment db rid objIn operatorId now).2).isSome = true ∧
    (allocate_equipment db rid objIn operatorId now).1.requests =
      db.requests.map (fun r => if r.id == rid then
        { r with status := "completed", notes := objIn.notes, updatedAt := now }
      else r) ∧
    (allocate_equipment db rid objIn operatorId now).1.history.map
        (fun e => (e.requestId, e.status, e.operatorId, e.notes)) =
      db.history.map (fun e => (e.requestId, e.status, e.operatorId, e.notes)) ++
        [(rid, "completed", operatorId,
          if pyTruthy objIn.notes then objIn.notes else some "分配完成")] ∧
    (allocate_equipment db rid objIn operatorId now).1.tokens =
      db.tokens.map (fun tk => if tk.requestId == rid then
        { tk with isFinished := true } else tk) := by
  have hmem := List.mem_of_find?_eq_some h1
  have hp := List.find?_some h1
  simp only [pendingAllocationReq, Bool.and_eq_true] at hp
  have hid : (req.id == rid) = true := hp.1
  unfold allocate_equipment mark_tokens_as_finished
  rw [h1]
  dsimp only
  refine ⟨?_, ?_, ?_, ?_⟩
  · rw [foldl_apply_requests]
    refine isSome_find?_of_mem (List.mem_map_of_mem _ hmem) ?_
    have heq : req.id = rid := by simpa using hid
    simp [byRequestId, heq]
  · rw [foldl_apply_requests]
  · rw [foldl_apply_history]
    simp
  · rw [foldl_apply_tokens]

theorem spec_c2_witness :
    ((allocate_equipment dbAlloc "r1" bodyGood "s1" 7).2).isSome = true ∧
    (allocate_equipment dbAlloc "r1" bodyGood "s1" 7).1.requests =
      dbAlloc.requests.map (fun r => if r.id == "r1" then
        { r with status := "completed", notes := bodyGood.notes, updatedAt := 7 }
      else r) ∧
    (allocate_equipment dbAlloc "r1" bodyGood "s1" 7).1.history.map
        (fun e => (e.requestId, e.status, e.operatorId, e.notes)) =
      dbAlloc.history.map (fun e => (e.requestId, e.status, e.operatorId, e.notes)) ++
        [("r1", "completed", "s1",
          if pyTruthy bodyGood.notes then bodyGood.notes else some "分配完成")] ∧
    (allocate_equipment dbAlloc "r1" bodyGood "s1" 7).1.tokens =
      dbAlloc.tokens.map (fun tk => if tk.requestId == "r1" then
        { tk with isFinished := true } else tk) :=
  spec_c2 dbAlloc "r1" bodyGood "s1" 7 reqPendingAlloc (by decide)

/-- C3: a valid first-ever submission advances the request from
pending_building_response to pending_allocation and appends a history entry
with the new status; a later building's valid submission against a request
already in pending_allocation leaves every request row unchanged while still
appending a history entry carrying that status. -/
theorem spec_c3 (db : DB) (t : String) (objIn : BuildingResponseCreate)
    (ip : Option String) (now : Nat) (tokenObj : ResponseToken)
    (request : Request) (building : Building)
    (h1 : db.tokens.find? (tokenValid t now) = some tokenObj)
    (h2 : db.requests.find? (byRequestId tokenObj.requestId) = some request)
    (h4 : db.buildings.find? (enabledBuilding objIn.buildingId) = some building)
    (h5 : objIn.items.all (itemBelongs db tokenObj.requestId) = true)
    (h6 : db.responses.find? (pairResponse tokenObj.id objIn.buildingId) = none) :
    (request.status = "pending_building_response" →
      (submit_response db t objIn ip now).2.isSome = true ∧
      (submit_response db t objIn ip now).1.requests =
        db.requests.map (fun r => if r.id == request.id then
          { r with status := "pending_allocation", updatedAt := now } else r) ∧
      (submit_response db t objIn ip now).1.history.map
          (fun e => (e.requestId, e.status)) =
        db.history.map (fun e => (e.requestId, e.status)) ++
          [(request.id, "pending_allocation")]) ∧
    (request.status = "pending_allocation" →
      (submit_response db t objIn ip now).2.isSome = true ∧
      (submit_response db t objIn ip now).1.requests = db.requests ∧
      (submit_response db t objIn ip now).1.history.map
          (fun e => (e.requestId, e.status)) =
        db.history.map (fun e => (e.requestId, e.status)) ++
          [(request.id, "pending_allocation")]) := by
  have hscrut : (if tokenObj.isUsed then
      db.responses.find? (pairResponse tokenObj.id objIn.buildingId)
    else none) = none := by
    cases hu : tokenObj.isUsed <;> simp [hu, h6]
  constructor
  · intro hs
    have hchanged : (request.status == "pending_building_response") = true := by
      simp [hs]
    unfold submit_response
    rw [h1]
    dsimp only
    rw [h2]
    dsimp only
    rw [if_neg (by simp [hs]), h4]
    dsimp only
    rw [if_neg (by simp [h5]), hscrut]
    dsimp only
    refine ⟨rfl, by simp [hchanged], by simp [hchanged]⟩
  · intro hs
    have hchanged : (request.status == "pending_building_response") = false := by
      simp [hs]
    unfold submit_response
    rw [h1]
    dsimp only
    rw [h2]
    dsimp only
    rw [if_neg (by simp [hs]), h4]
    dsimp only
    rw [if_neg (by simp [h5]), hscrut]
    dsimp only
    refine ⟨rfl, by simp [hchanged], by simp [hchanged, hs]⟩

theorem spec_c3_witness :
    (submit_response dbRespond "tok3" ⟨"b1", [⟨"i2", 2⟩]⟩ (some "1.2.3.4") 5).2.isSome
        = true ∧
    (submit_response dbRespond "tok3" ⟨"b1", [⟨"i2", 2⟩]⟩ (some "1.2.3.4") 5).1.requests =
      dbRespond.requests.map (fun r => if r.id == reqPendingBR.id then
        { r with status := "pending_allocation", updatedAt := 5 } else r) ∧
    (submit_response dbRespond "tok3" ⟨"b1", [⟨"i2", 2⟩]⟩ (some "1.2.3.4") 5).1.history.map
        (fun e => (e.requestId, e.status)) =
      dbRespond.history.map (fun e => (e.requestId, e.status)) ++
        [(reqPendingBR.id, "pending_allocation")] :=
  (spec_c3 dbRespond "tok3" ⟨"b1", [⟨"i2", 2⟩]⟩ (some "1.2.3.4") 5 tokR2
    reqPendingBR bldgMain (by decide) (by decide) (by decide) (by decide)
    (by decide)).1 (by decide)

/-- C10: an empty items list is accepted end to end — it parses at the public
interface, and a valid submission with no items creates a BuildingResponse
carrying zero ResponseItems, marks the token used, and still advances a
pending_building_response request to pending_allocation. -/
theorem spec_c10 (db : DB) (t : String) (objIn : BuildingResponseCreate)
    (ip : Option String) (now : Nat) (tokenObj : ResponseToken)
    (request : Request) (building : Building)
    (h1 : db.tokens.find? (tokenValid t now) = some tokenObj)
    (h2 : db.requests.find? (byRequestId tokenObj.requestId) = some request)
    (h4 : db.buildings.find? (enabledBuilding objIn.buildingId) = some building)
    (h6 : db.responses.find? (pairResponse tokenObj.id objIn.buildingId) = none)
    (hempty : objIn.items = [])
    (hs : request.status = "pending_building_response") :
    parseBuildingResponseCreate objIn = .ok objIn ∧
    (submit_response db t objIn ip now).2 =
      some { id := mkId db.nextId, requestId := tokenObj.requestId,
             buildingId := objIn.buildingId, responseTokenId := tokenObj.id,
             submittedAt := now, ipAddress := ip } ∧
    (submit_response db t objIn ip now).1.responses =
      db.responses ++
        [{ id := mkId db.nextId, requestId := tokenObj.requestId,
           buildingId := objIn.buildingId, responseTokenId := tokenObj.id,
           submittedAt := now, ipAddress := ip }] ∧
    (submit_response db t objIn ip now).1.responseItems = db.responseItems ∧
    (submit_response db t objIn ip now).1.tokens =
      db.tokens.map (fun tk => if tk.id == tokenObj.id then
        { tk with isUsed := true } else tk) ∧
    (submit_response db t objIn ip now).1.requests =
      db.requests.map (fun r => if r.id == request.id then
        { r with status := "pending_allocation", updatedAt := now } else r) := by
  have h5 : objIn.items.all (itemBelongs db tokenObj.requestId) = true := by
    rw [hempty]; rfl
  have hscrut : (if tokenObj.isUsed then
      db.responses.find? (pairResponse tokenObj.id objIn.buildingId)
    else none) = none := by
    cases hu : tokenObj.isUsed <;> simp [hu, h6]
  have hchanged : (request.status == "pending_building_response") = true := by
    simp [hs]
  refine ⟨by simp [parseBuildingResponseCreate, hempty], ?_⟩
  unfold submit_response
  rw [h1]
  dsimp only
  rw [h2]
  dsimp only
  rw [if_neg (by simp [hs]), h4]
  dsimp only
  rw [if_neg (by simp [h5]), hscrut]
  dsimp only
  refine ⟨rfl, rfl, ?_, ?_, by simp [hchanged]⟩
  · simp [hempty, newResponseItems]
  · rfl

theorem spec_c10_witness :
    parseBuildingResponseCreate ⟨"b1", []⟩ = .ok ⟨"b1", []⟩ ∧
    (submit_response dbRespond "tok3" ⟨"b1", []⟩ (some "2.2.2.2") 5).2 =
      some { id := mkId dbRespond.nextId, requestId := tokR2.requestId,
             buildingId := "b1", responseTokenId := tokR2.id,
             submittedAt := 5, ipAddress := some "2.2.2.2" } ∧
    (submit_response dbRespond "tok3" ⟨"b1", []⟩ (some "2.2.2.2") 5).1.responses =
      dbRespond.responses ++
        [{ id := mkId dbRespond.nextId,
           requestId := tokR2.requestId, buildingId := "b1",
           responseTokenId := tokR2.id, submittedAt := 5,
           ipAddress := some "2.2.2.2" }] ∧
    (submit_response dbRespond "tok3" ⟨"b1", []⟩ (some "2.2.2.2") 5).1.responseItems =
      dbRespond.responseItems ∧
    (submit_response dbRespond "tok3" ⟨"b1", []⟩ (some "2.2.2.2") 5).1.tokens =
      dbRespond.tokens.map (fun tk => if tk.id == tokR2.id then
        { tk with isUsed := true } else tk) ∧
    (submit_response dbRespond "tok3" ⟨"b1", []⟩ (some "2.2.2.2") 5).1.requests =
      dbRespond.requests.map (fun r => if r.id == reqPendingBR.id then
        { r with status := "pending_allocation", updatedAt := 5 } else r) :=
  spec_c10 dbRespond "tok3" ⟨"b1", []⟩ (some "2.2.2.2") 5 tokR2 reqPendingBR
    bldgMain (by decide) (by decide) (by decide) (by decide) rfl (by decide)

/-- C4: resubmitting for a (token, building) pair that already has a
BuildingResponse updates that row in place — new submission time, new IP when
one is supplied — replaces its ResponseItems wholesale with the new items, and
creates no duplicate: the responses table keeps its length and still holds
exactly one row for the pair. -/
theorem spec_c4 (db : DB) (t : String) (objIn : BuildingResponseCreate)
    (ip : Option String) (now : Nat) (tokenObj : ResponseToken)
    (request : Request) (building : Building) (existing : BuildingResponse)
    (h1 : db.tokens.find? (tokenValid t now) = some tokenObj)
    (h2 : db.requests.find? (byRequestId tokenObj.requestId) = some request)
    (h3 : (request.status == "pending_building_response" ||
           request.status == "pending_allocation") = true)
    (h4 : db.buildings.find? (enabledBuilding objIn.buildingId) = some building)
    (h5 : objIn.items.all (itemBelongs db tokenObj.requestId) = true)
    (hUsed : tokenObj.isUsed = true)
    (h6 : db.responses.find? (pairResponse tokenObj.id objIn.buildingId) =
      some existing)
    (hip : pyTruthy ip = true)
    (hcount : db.responses.countP (pairResponse tokenObj.id objIn.buildingId) = 1) :
    (submit_response db t objIn ip now).2 =
      some { existing with submittedAt := now, ipAddress := ip } ∧
    (submit_response db t objIn ip now).1.responses =
      db.responses.map (fun r => if r.id == existing.id then
        { r with submittedAt := now, ipAddress := ip } else r) ∧
    (submit_response db t objIn ip now).1.responses.countP
        (pairResponse tokenObj.id objIn.buildingId) = 1 ∧
    (submit_response db t objIn ip now).1.responses.length =
      db.responses.length ∧
    (submit_response db t objIn ip now).1.responseItems =
      db.responseItems.filter (fun it => !(it.responseId == existing.id)) ++
        newResponseItems existing.id objIn.items db.nextId ∧
    ((submit_response db t objIn ip now).1.responseItems.filter
        (fun it => it.responseId == existing.id)).map
        (fun it => (it.requestItemId, it.availableQuantity)) =
      objIn.items.map (fun i => (i.itemId, i.availableQuantity)) := by
  have hgate : (!(request.status == "pending_building_response" ||
      request.status == "pending_allocation")) = false := by simp [h3]
  unfold submit_response
  rw [h1]
  dsimp only
  rw [h2]
  dsimp only
  rw [if_neg (by simp [hgate]), h4]
  dsimp only
  rw [if_neg (by simp [h5]), hUsed, if_pos rfl, h6]
  dsimp only
  refine ⟨by simp [hip], by simp [hip], ?_, by simp, rfl, ?_⟩
  · rw [countP_map_eq _ _ _ (fun r => ?_), hcount]
    by_cases h : (r.id == existing.id) = true <;> simp [pairResponse, h]
  · rw [List.filter_append,
      filter_of_filter_not (fun it => it.responseId == existing.id) db.responseItems,
      newResponseItems_filter_self, List.nil_append, newResponseItems_proj]

theorem spec_c4_witness :
    (submit_response dbResubmit "tok1" ⟨"b1", [⟨"i1", 3⟩]⟩ (some "1.1.1.1") 7).2 =
      some { respExisting with submittedAt := 7, ipAddress := some "1.1.1.1" } ∧
    (submit_response dbResubmit "tok1" ⟨"b1", [⟨"i1", 3⟩]⟩ (some "1.1.1.1") 7).1.responses =
      dbResubmit.responses.map (fun r => if r.id == respExisting.id then
        { r with submittedAt := 7, ipAddress := some "1.1.1.1" } else r) ∧
    (submit_response dbResubmit "tok1" ⟨"b1", [⟨"i1", 3⟩]⟩ (some "1.1.1.1") 7).1.responses.countP
        (pairResponse tokUsed.id "b1") = 1 ∧
    (submit_response dbResubmit "tok1" ⟨"b1", [⟨"i1", 3⟩]⟩ (some "1.1.1.1") 7).1.responses.length =
      dbResubmit.responses.length ∧
    (submit_response dbResubmit "tok1" ⟨"b1", [⟨"i1", 3⟩]⟩ (some "1.1.1.1") 7).1.responseItems =
      dbResubmit.responseItems.filter (fun it => !(it.responseId == respExisting.id)) ++
        newResponseItems respExisting.id [⟨"i1", 3⟩] dbResubmit.nextId ∧
    ((submit_response dbResubmit "tok1" ⟨"b1", [⟨"i1", 3⟩]⟩ (some "1.1.1.1") 7).1.responseItems.filter
        (fun it => it.responseId == respExisting.id)).map
        (fun it => (it.requestItemId, it.availableQuantity)) =
      ([⟨"i1", 3⟩] : List ResponseItemIn).map (fun i => (i.itemId, i.availableQuantity)) :=
  spec_c4 dbResubmit "tok1" ⟨"b1", [⟨"i1", 3⟩]⟩ (some "1.1.1.1") 7 tokUsed
    reqPendingAlloc bldgMain respExisting (by decide) (by decide) (by decide)
    (by decide) (by decide) (by decide) (by decide) (by decide) (by decide)

/-- C7 (code bug): after the allocate transaction commits, the LINE
notification block calls the service with a building_name keyword its
signature does not accept (it takes building_id), raising TypeError, and the
except-handler then evaluates logging_service, which crud/allocations.py never
imports — the resulting NameError escapes, so a notification-dispatch failure
fails the whole allocate call (HTTP 500) instead of being caught and logged,
even though the committed state below it is complete. -/
theorem spec_c7_bug :
    (api_allocate dbAlloc "r1" bodyGood "s1" 7).2 =
      .unhandledError "NameError: name logging_service is not defined" ∧
    (api_allocate dbAlloc "r1" bodyGood "s1" 7).1.requests.map (fun r => r.status) =
      ["completed"] ∧
    (api_allocate dbAlloc "r1" bodyGood "s1" 7).1.tokens.map (fun tk => tk.isFinished) =
      [true, true] :=
  ⟨rfl, rfl, rfl⟩

/-- C9 (counterexample): an allocate call whose only entry names an itemId
that does not belong to the request does NOT fail with NotFound — the entry is
silently skipped and the call succeeds, completing the request. -/
theorem spec_c9_counterexample :
    (api_allocate dbAlloc "r1" bodyBogus "s1" 7).2 =
      .ok "r1" "completed" (some "/api/requests/r1/pdf") none ∧
    (api_allocate dbAlloc "r1" bodyBogus "s1" 7).1.requests.map (fun r => r.status) =
      ["completed"] :=
  ⟨rfl, rfl⟩

/-- C9 (amended): submit_response with an itemId not belonging to the token's
request fails (None, mapped to NotFound) and writes nothing; allocate, by
contrast, skips allocation entries whose itemId does not belong to the request
— writing no Allocation rows and no approved-quantity update for them — while
the call itself still succeeds. -/
theorem spec_c9_amended (db : DB) (t : String) (objInS : BuildingResponseCreate)
    (ip : Option String) (now : Nat) (tokenObj : ResponseToken)
    (request : Request) (building : Building) (dbA : DB) (rid : String)
    (objInA : AllocationCreate) (opId : String) (nowA : Nat) (req : Request)
    (a : ItemAllocationBase) :
    (db.tokens.find? (tokenValid t now) = some tokenObj →
     db.requests.find? (byRequestId tokenObj.requestId) = some request →
     (request.status == "pending_building_response" ||
       request.status == "pending_allocation") = true →
     db.buildings.find? (enabledBuilding objInS.buildingId) = some building →
     (∃ it ∈ objInS.items, itemBelongs db tokenObj.requestId it = false) →
     submit_response db t objInS ip now = (db, none)) ∧
    (dbA.requests.find? (pendingAllocationReq rid) = some req →
     a ∈ objInA.allocations →
     (∀ it ∈ dbA.requestItems, it.requestId = rid → it.id ≠ a.itemId) →
     ((allocate_equipment dbA rid objInA opId nowA).2.isSome = true ∧
      (allocate_equipment dbA rid objInA opId nowA).1.allocations.filter
          (fun al => al.requestItemId == a.itemId) =
        dbA.allocations.filter (fun al => al.requestItemId == a.itemId) ∧
      (allocate_equipment dbA rid objInA opId nowA).1.requestItems.filter
          (fun it => it.id == a.itemId) =
        dbA.requestItems.filter (fun it => it.id == a.itemId))) := by
  constructor
  · intro h1 h2 h3 h4 hbad
    obtain ⟨it, hit, hfalse⟩ := hbad
    have h5fail : objInS.items.all (itemBelongs db tokenObj.requestId) = false :=
      all_eq_false_of_mem hit hfalse
    unfold submit_response
    rw [h1]
    dsimp only
    rw [h2]
    dsimp only
    rw [if_neg (by simp [h3]), h4]
    dsimp only
    rw [if_pos (by simp [h5fail])]
  · intro hf ha hbad
    have hsnap : (dbA.requestItems.filter
        (fun it => it.requestId == rid)).any (fun it => it.id == a.itemId) = false := by
      cases h : (dbA.requestItems.filter
          (fun it => it.requestId == rid)).any (fun it => it.id == a.itemId) with
      | false => rfl
      | true =>
        rw [List.any_eq_true] at h
        obtain ⟨it, hmem, hid⟩ := h
        rw [List.mem_filter] at hmem
        exact absurd (beq_iff_eq.mp hid)
          (hbad it hmem.1 (beq_iff_eq.mp hmem.2))
    have hmem := List.mem_of_find?_eq_some hf
    have hp := List.find?_some hf
    simp only [pendingAllocationReq, Bool.and_eq_true] at hp
    have heq : req.id = rid := by simpa using hp.1
    unfold allocate_equipment mark_tokens_as_finished
    rw [hf]
    dsimp only
    refine ⟨?_, ?_, ?_⟩
    · rw [foldl_apply_requests]
      refine isSome_find?_of_mem (List.mem_map_of_mem _ hmem) ?_
      simp [byRequestId, heq]
    · exact foldl_apply_alloc_filter _ rid opId a.itemId hsnap objInA.allocations dbA
    · exact foldl_apply_item_filter _ rid opId a.itemId hsnap objInA.allocations dbA

theorem spec_c9_amended_witness :
    submit_response dbAlloc "tok1" ⟨"b1", [⟨"iX", 1⟩]⟩ none 5 = (dbAlloc, none) ∧
    ((allocate_equipment dbAlloc "r1" bodyBogus "s1" 7).2.isSome = true ∧
     (allocate_equipment dbAlloc "r1" bodyBogus "s1" 7).1.allocations.filter
         (fun al => al.requestItemId == bogusItem.itemId) =
       dbAlloc.allocations.filter (fun al => al.requestItemId == bogusItem.itemId) ∧
     (allocate_equipment dbAlloc "r1" bodyBogus "s1" 7).1.requestItems.filter
         (fun it => it.id == bogusItem.itemId) =
       dbAlloc.requestItems.filter (fun it => it.id == bogusItem.itemId)) :=
  ⟨(spec_c9_amended dbAlloc "tok1" ⟨"b1", [⟨"iX", 1⟩]⟩ none 5 tokUsed
      reqPendingAlloc bldgMain dbAlloc "r1" bodyBogus "s1" 7 reqPendingAlloc
      bogusItem).1 (by decide) (by decide) (by decide) (by decide)
      ⟨⟨"iX", 1⟩, by decide, by decide⟩,
   (spec_c9_amended dbAlloc "tok1" ⟨"b1", [⟨"iX", 1⟩]⟩ none 5 tokUsed
      reqPendingAlloc bldgMain dbAlloc "r1" bodyBogus "s1" 7 reqPendingAlloc
      bogusItem).2 (by decide) (by decide) (by decide)⟩
